import Mathlib

/-!
# Kubernetes collector relay: bootstrap and event-loop driver

A shallow embedding of `collector/k8s/main.cc`: the function `run_uv_loop`
(the reconnect driver that runs on the loop thread) and the function `main`
(the wiring of channel, queue, processor and RPC server).

Every call that leaves the translation unit is recorded as an `Event`; what
such a call returns is read from an `Env`.  A run of `main` is the list of
events it performed together with the way it ended.  The loop thread is a
step machine over the two statements of the body of `run_uv_loop`.
-/

namespace Collector

set_option linter.constructorNameAsVariable false

/-! ## Objects, events, outcomes -/

/-- The local objects of `main` that are handed around by reference. -/
inductive Var where
  | loop
  | configuration_data
  | authz_fetcher
  | channel
  | queue
  | processor
  | service
  | uv_thread
  deriving DecidableEq, Repr

/-- The functions of `main.cc` that are run on a thread of their own. -/
inductive ThreadFn where
  | run_uv_loop
  deriving DecidableEq, Repr

/-- The value of `AuthzFetcher::read_agent_key()` on success. -/
structure AgentKey where
  key_id : String
  secret : String
  deriving DecidableEq, Repr

/-- Calls whose body is not in `main.cc` and which may raise a C++ exception. -/
inductive ExtCall where
  | gen_agent_id
  | config_file
  | tls_init
  | handle_signals
  | curl_create
  | read_proxy_from_env
  | authz_fetcher
  | authz_token
  | read_config
  | new_channel
  | new_queue
  | new_processor
  | register_pipeline_observer
  | new_service
  | thread_start
  | add_listening_port
  | register_service
  | build_and_start
  deriving DecidableEq, Repr

/-- One observable action of the program: a call that leaves `main.cc` (and, for `uv_run`,
its coming back). -/
inductive Event where
  | uv_loop_init (loop : Var)
  | read_agent_key
  | log_critical (fmt : String) (arg : String)
  | log_error (fmt : String) (arg : String)
  | log_info (fmt : String) (args : List String)
  | call_exit (code : Int)
  | parser_flag (name : String)
  | parser_handler (name : String)
  /-- The call `AuthzFetcher::register_args_parser(parser)`. -/
  | authz_register_args
  | add_auth (key_id secret : String)
  | parser_process (argv : List String)
  | gen_agent_id
  | get_host_name (max_len : Nat)
  | config_file (path : String)
  | tls_init
  | handle_signals (signals : List String)
  | curl_create (loop : Var)
  | read_proxy_from_env
  | new_authz_fetcher (authz_server : String) (key : AgentKey) (agent_id : String)
      (has_proxy : Bool)
  | authz_token
  | read_config
  | new_channel (self : Var) (loop : Var) (cap : Nat)
  | new_queue (self : Var)
  | new_processor (self : Var) (loop queue channel config : Var) (hostname : String)
      (authz : Var) (aws_timeout_ms : Int) (heartbeat_sec : Int) (cap : Nat)
  | register_pipeline_observer (channel observer : Var)
  | new_service (self : Var) (queue : Var) (cap : Nat)
  | thread_start (self : Var) (fn : ThreadFn) (channel loop : Var)
  | add_listening_port (addr : String)
  | register_service (service : Var)
  | build_and_start
  | server_wait
  | thread_join (thread : Var)
  | start_connect (channel : Var)
  | uv_run (loop : Var)
  | uv_run_returned (loop : Var)
  deriving DecidableEq, Repr

/-- How a run of `main` ends. -/
inductive Outcome where
  /-- `main` executed a `return` statement with this value. -/
  | returned (code : Int)
  /-- `exit(code)` was called. -/
  | exited (code : Int)
  /-- An exception thrown in `main` itself left it: the process is ended by
  `std::terminate`. -/
  | uncaught (what : String)
  /-- An exception raised by a call into other code left `main`: the process is ended by
  `std::terminate`. -/
  | raised (call : ExtCall)
  /-- A null pointer was dereferenced. -/
  | null_deref
  /-- A blocking call never came back: the process keeps running. -/
  | blocked (at_call : Event)
  deriving DecidableEq, Repr

/-- The status a parent process observes for `exit(code)` or `return code` from `main`:
the low eight bits of the code. -/
def exit_status (code : Int) : Nat := (code % 256).toNat

/-! ## Constants and environment -/

/-- Compile-time constants of the collector's headers (`collector/constants.h` and those it
draws on), whose definitions are not in `main.cc`.  They are parameters of the model. -/
structure Constants where
  WRITE_BUFFER_SIZE : Nat
  /-- The value of `duration_cast<seconds>(HEARTBEAT_INTERVAL).count()`. -/
  HEARTBEAT_INTERVAL_sec : Int
  MAX_HOSTNAME_LENGTH : Nat

/-- The C library value of `EXIT_FAILURE`. -/
def EXIT_FAILURE : Int := 1

/-- What `parser.process(argc, argv)` leaves in the flags on success: for each flag the
value matched on the command line, if any. -/
structure ParsedArgs where
  server_address : Option String
  config_file : Option String
  authz_server : String
  aws_timeout : Option Nat
  heartbeat_interval_sec : Option Nat

/-- Everything `main` gets from outside `main.cc`. -/
structure Env where
  /-- The error code of `uv_loop_init`; zero is success. -/
  uv_loop_init : Int
  uv_strerror : Int → String
  read_agent_key : Except String AgentKey
  /-- The result of `parser.process`: the matched flags, or the error code it reports. -/
  parser_process : List String → Except Int ParsedArgs
  gen_agent_id : String
  get_host_name : Nat → Except String String
  release : String
  release_mode_string : String
  /-- Whether `HttpProxyConfig::read_from_env()` has a value. -/
  has_proxy : Bool
  /-- Whether the call raises an exception. -/
  throws : ExtCall → Bool
  /-- Whether `BuildAndStart()` gives a non-null server. -/
  server_built : Bool
  /-- Whether `server->Wait()` comes back. -/
  server_wait_returns : Bool
  /-- Whether `uv_thread.join()` comes back. -/
  join_returns : Bool

/-! ## Machine integers -/

/-- A value stored in a `u64`. -/
def u64 (n : Int) : Nat := (n % 2 ^ 64).toNat

/-- A value stored in a `u16`. -/
def u16 (n : Int) : Nat := (n % 2 ^ 16).toNat

/-- A value stored in a 64-bit signed integer, the representation type of
`std::chrono::milliseconds` and `std::chrono::seconds`: a value out of range wraps around
(two's complement). -/
def i64 (n : Int) : Int := (n + 2 ^ 63) % 2 ^ 64 - 2 ^ 63

/-- The expression `std::chrono::milliseconds(v)` for an unsigned `v`: the tick count is
converted to the signed representation type. -/
def milliseconds (v : Nat) : Int := i64 v

/-- The expression `std::chrono::seconds(v)` for an unsigned `v`. -/
def seconds (v : Nat) : Int := i64 v

/-- The method `args::ValueFlag<T>::Get`: the matched value, else the default the flag was
declared with. -/
def ValueFlag.Get {α : Type} (defaultValue : α) (matched : Option α) : α :=
  matched.getD defaultValue

/-! ## Runs -/

/-- A run: the events performed so far, and either the value computed or the way the
program stopped. -/
structure Run (α : Type) where
  trace : List Event
  result : Except Outcome α

/-- The run that performs the events `t` and then continues as `r`. -/
def Run.after {α : Type} (t : List Event) (r : Run α) : Run α :=
  ⟨t ++ r.trace, r.result⟩

/-- Sequencing of runs: the second part runs only if the first did not stop. -/
def Run.bind {α β : Type} (m : Run α) (f : α → Run β) : Run β :=
  match m.result with
  | .error o => ⟨m.trace, .error o⟩
  | .ok a => Run.after m.trace (f a)

instance : Monad Run where
  pure a := ⟨[], .ok a⟩
  bind := Run.bind

/-- Perform one event. -/
def emit (e : Event) : Run Unit := ⟨[e], .ok ()⟩

/-- Stop the program. -/
def stop {α : Type} (o : Outcome) : Run α := ⟨[], .error o⟩

/-- A call into code outside `main.cc` whose result is not inspected: it is recorded, unless
it raises. -/
def ext (env : Env) (c : ExtCall) (e : Event) : Run Unit :=
  if env.throws c then stop (.raised c) else emit e

/-- The way a run of `main` ended. -/
def Run.outcome (r : Run Int) : Outcome :=
  match r.result with
  | .ok c => .returned c
  | .error o => o

/-- Modelled from the spec: the method `Expected::on_error` (`util/expected.h` is not among
the sources).  Per the spec a credential error at startup is acted upon at once: the handler
runs when the value is an error, and the value is passed on for chaining. -/
def on_error {α : Type} (x : Except String α) (handler : String → Run Unit) :
    Run (Except String α) :=
  match x with
  | .ok a => pure (.ok a)
  | .error e => do handler e; pure (.error e)

/-- Modelled from the spec: the method `Expected::value` (`util/expected.h` is not among the
sources).  It gives the value held; asking an error for its value raises. -/
def value {α : Type} (x : Except String α) : Run α :=
  match x with
  | .ok a => pure a
  | .error _ => stop (.uncaught "bad expected access")

/-- Modelled from the spec: the method `Expected::recover` (`util/expected.h` is not among
the sources).  Per the spec a failed host-metadata fetch degrades to a placeholder value: a
success passes through, and for an error the result of the handler stands in. -/
def recover {α : Type} (x : Except String α) (handler : String → Run α) : Run α :=
  match x with
  | .ok a => pure a
  | .error e => handler e

/-! ## The program -/

/-- The function `main`. -/
def main (K : Constants) (env : Env) (argv : List String) : Run Int := do
  -- ::uv_loop_t loop; uv_loop_init(&loop)
  emit (.uv_loop_init .loop)
  if env.uv_loop_init ≠ 0 then
    stop (.uncaught (env.uv_strerror env.uv_loop_init))
  -- read settings from environment
  emit .read_agent_key
  let key_or_error ← on_error env.read_agent_key fun error => do
    emit (.log_critical "Authentication key error: {}" error)
    emit (.call_exit (-1))
    stop (.exited (-1))
  let agent_key ← value key_or_error
  -- args parsing
  emit (.parser_flag "help")
  emit (.parser_flag "server-address")
  emit (.parser_flag "config-file")
  emit .authz_register_args
  emit (.parser_flag "aws-timeout")
  emit (.parser_flag "heartbeat-interval-sec")
  emit (.parser_handler "channel")
  emit (.parser_handler "component")
  emit (.parser_handler "cloud-platform")
  emit (.parser_handler "utility")
  emit (.parser_handler "intake-config")
  emit (.parser_handler "k8s-collector")
  emit (.add_auth agent_key.key_id agent_key.secret)
  emit (.parser_process argv)
  let parsed ← match env.parser_process argv with
    | .ok p => pure p
    | .error code => stop (.returned code)
  let server_address : String := ValueFlag.Get "localhost:8712" parsed.server_address
  let conf_file : String := ValueFlag.Get "" parsed.config_file
  let aws_metadata_timeout_ms : Nat :=
    ValueFlag.Get (u64 (1 * 1000)) (parsed.aws_timeout.map fun v => u64 v)
  let heartbeat_interval_sec : Nat :=
    ValueFlag.Get (u16 K.HEARTBEAT_INTERVAL_sec) (parsed.heartbeat_interval_sec.map fun v => u16 v)
  ext env .gen_agent_id .gen_agent_id
  let agent_id := env.gen_agent_id
  -- resolve hostname
  emit (.get_host_name K.MAX_HOSTNAME_LENGTH)
  let hostname ← recover (env.get_host_name K.MAX_HOSTNAME_LENGTH) fun error => do
    emit (.log_error "Unable to retrieve host information from uname: {}" error)
    pure "(unknown)"
  emit (.log_info "Kubernetes Collector version {} ({}) started on host {}"
    [env.release, env.release_mode_string, hostname])
  emit (.log_info "Kubernetes Collector agent ID is {}" [agent_id])
  ext env .config_file (.config_file conf_file)
  -- the TLS library
  ext env .tls_init .tls_init
  ext env .handle_signals (.handle_signals ["SIGINT", "SIGTERM"])
  ext env .curl_create (.curl_create .loop)
  -- initial authz token and intake_config
  ext env .read_proxy_from_env .read_proxy_from_env
  ext env .authz_fetcher
    (.new_authz_fetcher parsed.authz_server agent_key agent_id env.has_proxy)
  ext env .authz_token .authz_token
  ext env .read_config .read_config
  ext env .new_channel (.new_channel .channel .loop K.WRITE_BUFFER_SIZE)
  ext env .new_queue (.new_queue .queue)
  ext env .new_processor
    (.new_processor .processor .loop .queue .channel .configuration_data hostname
      .authz_fetcher (milliseconds aws_metadata_timeout_ms) (seconds heartbeat_interval_sec)
      K.WRITE_BUFFER_SIZE)
  ext env .register_pipeline_observer (.register_pipeline_observer .channel .processor)
  ext env .new_service (.new_service .service .queue K.WRITE_BUFFER_SIZE)
  ext env .thread_start (.thread_start .uv_thread .run_uv_loop .channel .loop)
  ext env .add_listening_port (.add_listening_port server_address)
  ext env .register_service (.register_service .service)
  ext env .build_and_start .build_and_start
  if env.server_built = false then
    stop .null_deref
  emit .server_wait
  if env.server_wait_returns = false then
    stop (.blocked .server_wait)
  emit (.thread_join .uv_thread)
  if env.join_returns = false then
    stop (.blocked (.thread_join .uv_thread))
  -- Above function should never return.
  pure EXIT_FAILURE

/-! ## The loop thread -/

/-- Where the thread that executes `run_uv_loop` stands. -/
inductive Pc where
  /-- About to execute `channel->start_connect()`. -/
  | start_connect
  /-- About to execute `uv_run(loop, UV_RUN_DEFAULT)`. -/
  | uv_run
  /-- Inside a call of `uv_run` that does not come back. -/
  | in_uv_run
  /-- An exception raised by `start_connect` has left the thread function: the process is
  ended by `std::terminate`. -/
  | terminated
  /-- Past the end of the function body. -/
  | returned
  deriving DecidableEq, Repr

/-- The state of the thread that executes `run_uv_loop`: its position and what it has done. -/
structure LoopState where
  pc : Pc
  trace : List Event
  deriving DecidableEq, Repr

/-- Recognises a call of `start_connect`. -/
def is_start_connect : Event → Bool
  | .start_connect _ => true
  | _ => false

/-- Recognises a call of `uv_run`. -/
def is_uv_run : Event → Bool
  | .uv_run _ => true
  | _ => false

/-- How often `start_connect` has been called. -/
def LoopState.connects (s : LoopState) : Nat := s.trace.countP is_start_connect

/-- How often `uv_run` has been called. -/
def LoopState.runs (s : LoopState) : Nat := s.trace.countP is_uv_run

/-- One statement of the body of `for (;;) { channel->start_connect(); uv_run(loop, ...); }`.
The loop has no condition and the body no `break` or `return`, so the statement after
`uv_run` is `start_connect` again.  The method `start_connect` is C++ code outside `main.cc`
and may raise: whether its call number `k` (from zero) does is given by
`start_connect_raises k`; nothing catches the exception, so it ends the thread function.
The function `uv_run` is a C function of libuv: it comes back or it does not, and whether
its call number `k` (from zero) comes back is given by `uv_run_comes_back k`. -/
def run_uv_loop_step (channel loop : Var) (start_connect_raises uv_run_comes_back : Nat → Bool)
    (s : LoopState) : LoopState :=
  match s.pc with
  | .start_connect =>
    if start_connect_raises s.connects then
      ⟨.terminated, s.trace ++ [.start_connect channel]⟩
    else
      ⟨.uv_run, s.trace ++ [.start_connect channel]⟩
  | .uv_run =>
    if uv_run_comes_back s.runs then
      ⟨.start_connect, s.trace ++ [.uv_run loop, .uv_run_returned loop]⟩
    else
      ⟨.in_uv_run, s.trace ++ [.uv_run loop]⟩
  | .in_uv_run => s
  | .terminated => s
  | .returned => s

/-- The function `run_uv_loop`, executed for `fuel` statements. -/
def run_uv_loop (channel loop : Var) (start_connect_raises uv_run_comes_back : Nat → Bool) :
    Nat → LoopState
  | 0 => ⟨.start_connect, []⟩
  | fuel + 1 => run_uv_loop_step channel loop start_connect_raises uv_run_comes_back
      (run_uv_loop channel loop start_connect_raises uv_run_comes_back fuel)

/-! ## Straight-line form of `main`

`main` has no loop and no branch other than the checks that end it, so a run is a list of
steps taken in order until a check fails. -/

/-- One step of straight-line code: an event performed, or a check that ends the run with
the given outcome when it fails. -/
inductive Step where
  | ev (e : Event)
  | guard (failed : Bool) (o : Outcome)

/-- Run a list of steps; at its end return `code`. -/
def exec (code : Int) : List Step → Run Int
  | [] => pure code
  | .ev e :: rest => Run.after [e] (exec code rest)
  | .guard failed o :: rest => if failed then stop o else exec code rest

/-- The events of a list of steps. -/
def events : List Step → List Event
  | [] => []
  | .ev e :: rest => e :: events rest
  | .guard _ _ :: rest => events rest

/-- No check of the list fails. -/
def passes : List Step → Bool
  | [] => true
  | .ev _ :: rest => passes rest
  | .guard failed _ :: rest => !failed && passes rest

/-- The steps of `main` after the start of the loop thread. -/
def after_start_steps (env : Env) (p : ParsedArgs) : List Step :=
  [ .guard (env.throws .add_listening_port) (.raised .add_listening_port),
    .ev (.add_listening_port (ValueFlag.Get "localhost:8712" p.server_address)),
    .guard (env.throws .register_service) (.raised .register_service),
    .ev (.register_service .service),
    .guard (env.throws .build_and_start) (.raised .build_and_start),
    .ev .build_and_start,
    .guard (!env.server_built) .null_deref,
    .ev .server_wait,
    .guard (!env.server_wait_returns) (.blocked .server_wait),
    .ev (.thread_join .uv_thread),
    .guard (!env.join_returns) (.blocked (.thread_join .uv_thread)) ]

/-- The steps of `main` from the start of the loop thread to its end. -/
def serving_steps (env : Env) (p : ParsedArgs) : List Step :=
  .guard (env.throws .thread_start) (.raised .thread_start) ::
  .ev (.thread_start .uv_thread .run_uv_loop .channel .loop) ::
  after_start_steps env p

/-- The steps of `main` from the first log line to the construction of the RPC service. -/
def wiring_steps (K : Constants) (env : Env) (agent_key : AgentKey) (p : ParsedArgs)
    (hostname : String) : List Step :=
  [ .ev (.log_info "Kubernetes Collector version {} ({}) started on host {}"
      [env.release, env.release_mode_string, hostname]),
    .ev (.log_info "Kubernetes Collector agent ID is {}" [env.gen_agent_id]),
    .guard (env.throws .config_file) (.raised .config_file),
    .ev (.config_file (ValueFlag.Get "" p.config_file)),
    .guard (env.throws .tls_init) (.raised .tls_init),
    .ev .tls_init,
    .guard (env.throws .handle_signals) (.raised .handle_signals),
    .ev (.handle_signals ["SIGINT", "SIGTERM"]),
    .guard (env.throws .curl_create) (.raised .curl_create),
    .ev (.curl_create .loop),
    .guard (env.throws .read_proxy_from_env) (.raised .read_proxy_from_env),
    .ev .read_proxy_from_env,
    .guard (env.throws .authz_fetcher) (.raised .authz_fetcher),
    .ev (.new_authz_fetcher p.authz_server agent_key env.gen_agent_id env.has_proxy),
    .guard (env.throws .authz_token) (.raised .authz_token),
    .ev .authz_token,
    .guard (env.throws .read_config) (.raised .read_config),
    .ev .read_config,
    .guard (env.throws .new_channel) (.raised .new_channel),
    .ev (.new_channel .channel .loop K.WRITE_BUFFER_SIZE),
    .guard (env.throws .new_queue) (.raised .new_queue),
    .ev (.new_queue .queue),
    .guard (env.throws .new_processor) (.raised .new_processor),
    .ev (.new_processor .processor .loop .queue .channel .configuration_data hostname
      .authz_fetcher
      (milliseconds (ValueFlag.Get (u64 (1 * 1000)) (p.aws_timeout.map fun v => u64 v)))
      (seconds (ValueFlag.Get (u16 K.HEARTBEAT_INTERVAL_sec)
        (p.heartbeat_interval_sec.map fun v => u16 v)))
      K.WRITE_BUFFER_SIZE),
    .guard (env.throws .register_pipeline_observer) (.raised .register_pipeline_observer),
    .ev (.register_pipeline_observer .channel .processor),
    .guard (env.throws .new_service) (.raised .new_service),
    .ev (.new_service .service .queue K.WRITE_BUFFER_SIZE) ]

/-- The value of the local `hostname` of `main`. -/
def resolved_hostname (K : Constants) (env : Env) : String :=
  match env.get_host_name K.MAX_HOSTNAME_LENGTH with
  | .error _ => "(unknown)"
  | .ok hostname => hostname

/-- The step the recovery from a failed `get_host_name` adds: the error is logged. -/
def hostname_steps (K : Constants) (env : Env) : List Step :=
  match env.get_host_name K.MAX_HOSTNAME_LENGTH with
  | .error err => [.ev (.log_error "Unable to retrieve host information from uname: {}" err)]
  | .ok _ => []

/-- The steps of `main` from its start to the call of `parser.process`, for the agent key
read. -/
def parsing_steps (env : Env) (argv : List String) (agent_key : AgentKey) : List Step :=
  [ .ev (.uv_loop_init .loop),
    .guard (env.uv_loop_init != 0) (.uncaught (env.uv_strerror env.uv_loop_init)),
    .ev .read_agent_key,
    .ev (.parser_flag "help"),
    .ev (.parser_flag "server-address"),
    .ev (.parser_flag "config-file"),
    .ev .authz_register_args,
    .ev (.parser_flag "aws-timeout"),
    .ev (.parser_flag "heartbeat-interval-sec"),
    .ev (.parser_handler "channel"),
    .ev (.parser_handler "component"),
    .ev (.parser_handler "cloud-platform"),
    .ev (.parser_handler "utility"),
    .ev (.parser_handler "intake-config"),
    .ev (.parser_handler "k8s-collector"),
    .ev (.add_auth agent_key.key_id agent_key.secret),
    .ev (.parser_process argv) ]

/-- The steps of `main` before the start of the loop thread, for the agent key read and the
flags matched. -/
def setup_steps (K : Constants) (env : Env) (argv : List String) (agent_key : AgentKey)
    (p : ParsedArgs) : List Step :=
  parsing_steps env argv agent_key ++
  [ .guard (env.throws .gen_agent_id) (.raised .gen_agent_id),
    .ev .gen_agent_id,
    .ev (.get_host_name K.MAX_HOSTNAME_LENGTH) ] ++
  hostname_steps K env ++
  wiring_steps K env agent_key p (resolved_hostname K env)

/-- The steps of `main`. -/
def main_steps (K : Constants) (env : Env) (argv : List String) : List Step :=
  match env.read_agent_key with
  | .error err =>
    [ .ev (.uv_loop_init .loop),
      .guard (env.uv_loop_init != 0) (.uncaught (env.uv_strerror env.uv_loop_init)),
      .ev .read_agent_key,
      .ev (.log_critical "Authentication key error: {}" err),
      .ev (.call_exit (-1)),
      .guard true (.exited (-1)) ]
  | .ok agent_key =>
    match env.parser_process argv with
    | .error code => parsing_steps env argv agent_key ++ [.guard true (.returned code)]
    | .ok p => setup_steps K env argv agent_key p ++ serving_steps env p

/-! ## Reading a run -/

/-- Recognises the start of a thread. -/
def is_thread_start : Event → Bool
  | .thread_start _ _ _ _ => true
  | _ => false

/-- Recognises the construction of a `ReconnectingChannel`. -/
def is_new_channel : Event → Bool
  | .new_channel _ _ _ => true
  | _ => false

/-- Recognises the construction of a `ResyncQueue`. -/
def is_new_queue : Event → Bool
  | .new_queue _ => true
  | _ => false

/-- Recognises the construction of a `ResyncProcessor`. -/
def is_new_processor : Event → Bool
  | .new_processor _ _ _ _ _ _ _ _ _ _ => true
  | _ => false

/-- Recognises the construction of a `KubernetesRpcServer`. -/
def is_new_service : Event → Bool
  | .new_service _ _ _ => true
  | _ => false

/-- Recognises a call of `LOG::error`. -/
def is_log_error : Event → Bool
  | .log_error _ _ => true
  | _ => false

/-- Recognises the events of the serving machinery: the construction of the channel, the
queue, the processor and the RPC service, the start of the loop thread, and the start of the
gRPC server. -/
def is_serving_event : Event → Bool
  | .new_channel _ _ _ => true
  | .new_queue _ => true
  | .new_processor _ _ _ _ _ _ _ _ _ _ => true
  | .new_service _ _ _ => true
  | .thread_start _ _ _ _ => true
  | .build_and_start => true
  | .start_connect _ => true
  | .uv_run _ => true
  | _ => false

/-- The byte cap an object is constructed with, for the events that construct one with a
cap. -/
def cap_of : Event → Option Nat
  | .new_channel _ _ cap => some cap
  | .new_processor _ _ _ _ _ _ _ _ _ cap => some cap
  | .new_service _ _ cap => some cap
  | _ => none

/-- The hostname a `ResyncProcessor` is constructed with. -/
def hostname_of : Event → Option String
  | .new_processor _ _ _ _ _ hostname _ _ _ _ => some hostname
  | _ => none

/-- The metadata timeout, in milliseconds, a `ResyncProcessor` is constructed with. -/
def aws_timeout_of : Event → Option Int
  | .new_processor _ _ _ _ _ _ _ aws_timeout_ms _ _ => some aws_timeout_ms
  | _ => none

/-- The queue an object is handed at construction. -/
def queue_of : Event → Option Var
  | .new_processor _ _ queue _ _ _ _ _ _ _ => some queue
  | .new_service _ queue _ => some queue
  | _ => none

/-- Recognises the calls `main` makes after it has started the loop thread: those of the
gRPC server, and the join. -/
def is_server_event : Event → Bool
  | .add_listening_port _ => true
  | .register_service _ => true
  | .build_and_start => true
  | .server_wait => true
  | .thread_join _ => true
  | _ => false

/-- The value matched for `--aws-timeout` on the command line, if the command line is
accepted and has the flag. -/
def aws_timeout_given (env : Env) (argv : List String) : Option Nat :=
  match env.parser_process argv with
  | .ok p => p.aws_timeout
  | .error _ => none

/-- The environment in which `get_host_name` succeeds with `name`, all else equal. -/
def with_hostname (env : Env) (name : String) : Env :=
  { env with get_host_name := fun _ => .ok name }

/-- The run has started the loop thread: it has reached the serving phase. -/
def Run.serving {α : Type} (r : Run α) : Prop :=
  Event.thread_start .uv_thread .run_uv_loop .channel .loop ∈ r.trace

instance {α : Type} (r : Run α) : Decidable r.serving := by
  unfold Run.serving; infer_instance

/-! ## The process: `main` and the loop thread together -/

/-- What the thread started by an event does in `fuel` statements: the thread function run
on the arguments it was started with. -/
def thread_trace (start_connect_raises uv_run_comes_back : Nat → Bool) (fuel : Nat) :
    Event → List Event
  | .thread_start _ .run_uv_loop channel loop =>
    (run_uv_loop channel loop start_connect_raises uv_run_comes_back fuel).trace
  | _ => []

/-- The events of two threads in the order a schedule lets them happen: `true` lets the first
thread perform its next event, `false` the second. -/
def interleave : List Bool → List Event → List Event → List Event
  | true :: sched, x :: xs, ys => x :: interleave sched xs ys
  | false :: sched, xs, y :: ys => y :: interleave sched xs ys
  | _, xs, ys => xs ++ ys

/-- A history of the process, given the events of `main`: the loop thread performs its
events after the event that starts it, interleaved with the later events of `main`. -/
def process_history (start_connect_raises uv_run_comes_back : Nat → Bool) (fuel : Nat)
    (sched : List Bool) : List Event → List Event
  | [] => []
  | e :: rest =>
    if is_thread_start e then
      e :: interleave sched rest (thread_trace start_connect_raises uv_run_comes_back fuel e)
    else
      e :: process_history start_connect_raises uv_run_comes_back fuel sched rest

/-! ## Sample inputs -/

/-- Sample constants. -/
def sample_constants : Constants :=
  { WRITE_BUFFER_SIZE := 16384, HEARTBEAT_INTERVAL_sec := 2, MAX_HOSTNAME_LENGTH := 256 }

/-- A command line without flags. -/
def no_flags : ParsedArgs :=
  { server_address := none, config_file := none, authz_server := "app.flowmill.com",
    aws_timeout := none, heartbeat_interval_sec := none }

/-- An environment in which every step of `main` succeeds and both `server->Wait()` and
`uv_thread.join()` come back. -/
def sample_env : Env :=
  { uv_loop_init := 0
    uv_strerror := fun _ => "error"
    read_agent_key := .ok { key_id := "KEYID", secret := "SECRET" }
    parser_process := fun _ => .ok no_flags
    gen_agent_id := "agent-0"
    get_host_name := fun _ => .ok "node-1"
    release := "0.9"
    release_mode_string := "release"
    has_proxy := false
    throws := fun _ => false
    server_built := true
    server_wait_returns := true
    join_returns := true }

/-- The sample environment without an agent key. -/
def env_no_key : Env :=
  { sample_env with read_agent_key := .error "no key" }

/-- The sample environment with a failing `uname`. -/
def env_no_hostname : Env :=
  { sample_env with get_host_name := fun _ => .error "uname failed" }

/-- The sample environment with `--aws-timeout 250` on the command line. -/
def env_timeout_250 : Env :=
  { sample_env with parser_process := fun _ => .ok { no_flags with aws_timeout := some 250 } }

/-- The sample environment with `--aws-timeout 9223372036854775808` on the command line. -/
def env_timeout_big : Env :=
  { sample_env with
    parser_process := fun _ => .ok { no_flags with aws_timeout := some (2 ^ 63) } }

/-! ## Sequencing lemmas -/

theorem emit_bind {β : Type} (e : Event) (f : Unit → Run β) :
    (emit e >>= f) = Run.after [e] (f ()) := rfl

theorem stop_bind {α β : Type} (o : Outcome) (f : α → Run β) :
    ((stop o : Run α) >>= f) = stop o := rfl

theorem ret_bind {α β : Type} (a : α) (f : α → Run β) :
    ((pure a : Run α) >>= f) = f a := by
  show Run.after [] (f a) = f a
  simp [Run.after]

theorem after_bind {α β : Type} (t : List Event) (r : Run α) (f : α → Run β) :
    (Run.after t r >>= f) = Run.after t (r >>= f) := by
  show Run.bind (Run.after t r) f = Run.after t (Run.bind r f)
  unfold Run.bind Run.after
  cases h : r.result <;> simp

theorem ite_bind {α β : Type} (c : Prop) [Decidable c] (x y : Run α) (f : α → Run β) :
    ((if c then x else y) >>= f) = if c then x >>= f else y >>= f := by
  split <;> rfl

theorem ext_bind {β : Type} (env : Env) (c : ExtCall) (e : Event) (f : Unit → Run β) :
    (ext env c e >>= f) =
      if env.throws c then stop (.raised c) else Run.after [e] (f ()) := by
  unfold ext; split <;> rfl

theorem after_trace {α : Type} (t : List Event) (r : Run α) :
    (Run.after t r).trace = t ++ r.trace := rfl

theorem after_result {α : Type} (t : List Event) (r : Run α) :
    (Run.after t r).result = r.result := rfl

theorem after_outcome (t : List Event) (r : Run Int) :
    (Run.after t r).outcome = r.outcome := rfl

theorem stop_trace {α : Type} (o : Outcome) : (stop o : Run α).trace = [] := rfl

theorem stop_outcome (o : Outcome) : (stop o : Run Int).outcome = o := rfl

theorem pure_trace {α : Type} (a : α) : (pure a : Run α).trace = [] := rfl

theorem pure_outcome (c : Int) : (pure c : Run Int).outcome = .returned c := rfl

/-! ## `main` in straight-line form -/

/-- The function `main` performs the steps `main_steps` and returns `EXIT_FAILURE` at their
end. -/
theorem main_eq_exec (K : Constants) (env : Env) (argv : List String) :
    main K env argv = exec EXIT_FAILURE (main_steps K env argv) := by
  rcases hk : env.read_agent_key with err | key
  · simp [main, main_steps, exec, on_error, emit_bind, stop_bind, ret_bind,
      ite_bind, after_bind, hk]
  · rcases hp : env.parser_process argv with code | p
    · simp [main, main_steps, parsing_steps, exec, on_error, value, emit_bind, stop_bind,
        ret_bind, ite_bind, after_bind, hk, hp]
    · rcases hh : env.get_host_name K.MAX_HOSTNAME_LENGTH with herr | host
      · simp [main, main_steps, setup_steps, parsing_steps, hostname_steps,
          resolved_hostname, wiring_steps, serving_steps, after_start_steps, exec,
          on_error, value, recover, emit_bind, stop_bind, ret_bind, ite_bind, ext_bind,
          after_bind, hk, hp, hh]
      · simp [main, main_steps, setup_steps, parsing_steps, hostname_steps,
          resolved_hostname, wiring_steps, serving_steps, after_start_steps, exec,
          on_error, value, recover, emit_bind, stop_bind, ret_bind, ite_bind, ext_bind,
          after_bind, hk, hp, hh]

/-! ## Runs of straight-line code -/

theorem exec_trace_initial (code : Int) (s : List Step) :
    (exec code s).trace <+: events s := by
  induction s with
  | nil => simp [exec, events, pure_trace]
  | cons x rest ih =>
    cases x with
    | ev e =>
      simp only [exec, events, after_trace, List.singleton_append]
      exact (List.prefix_cons_inj e).mpr ih
    | guard failed o =>
      simp only [exec, events]
      split
      · simp [stop_trace]
      · exact ih

theorem exec_append (code : Int) (s₁ s₂ : List Step) :
    exec code (s₁ ++ s₂) =
      if passes s₁ then Run.after (events s₁) (exec code s₂) else exec code s₁ := by
  induction s₁ with
  | nil => simp [passes, events, Run.after]
  | cons x rest ih =>
    cases x with
    | ev e =>
      show Run.after [e] (exec code (rest ++ s₂)) =
        if passes rest then Run.after (e :: events rest) (exec code s₂)
        else Run.after [e] (exec code rest)
      rw [ih]
      split <;> simp [Run.after]
    | guard failed o =>
      cases failed <;> simp [exec, passes, events, ih]

theorem mem_trace_exec {code : Int} {s : List Step} {e : Event}
    (h : e ∈ (exec code s).trace) : e ∈ events s :=
  (exec_trace_initial code s).subset h

/-- Every event of a run of `main` is an event of its steps. -/
theorem mem_trace_main {K : Constants} {env : Env} {argv : List String} {e : Event}
    (h : e ∈ (main K env argv).trace) : e ∈ events (main_steps K env argv) := by
  rw [main_eq_exec] at h
  exact mem_trace_exec h

theorem events_append (s₁ s₂ : List Step) : events (s₁ ++ s₂) = events s₁ ++ events s₂ := by
  induction s₁ with
  | nil => rfl
  | cons x rest ih => cases x <;> simp [events, ih]

/-- The events of the steps before the start of the loop thread. -/
theorem events_setup_steps (K : Constants) (env : Env) (argv : List String)
    (key : AgentKey) (p : ParsedArgs) :
    events (setup_steps K env argv key p) =
      events (parsing_steps env argv key) ++
        (.gen_agent_id :: .get_host_name K.MAX_HOSTNAME_LENGTH ::
          (events (hostname_steps K env) ++
            events (wiring_steps K env key p (resolved_hostname K env)))) := by
  simp [setup_steps, events_append, events]

/-- The recovery from a failed `get_host_name` performs nothing but `LOG::error`. -/
theorem mem_events_hostname_steps {K : Constants} {env : Env} {e : Event}
    (h : e ∈ events (hostname_steps K env)) : ∃ fmt arg, e = .log_error fmt arg := by
  unfold hostname_steps at h
  split at h
  · simp only [events, List.mem_singleton] at h
    exact ⟨_, _, h⟩
  · simp [events] at h

/-- A predicate that is false of `LOG::error` selects nothing of the recovery steps. -/
theorem filter_hostname_steps (K : Constants) (env : Env) (q : Event → Bool)
    (hq : ∀ fmt arg, q (.log_error fmt arg) = false) :
    (events (hostname_steps K env)).filter q = [] := by
  rw [List.filter_eq_nil_iff]
  intro e he
  obtain ⟨fmt, arg, rfl⟩ := mem_events_hostname_steps he
  simp [hq]

/-- What a run that has started the loop thread looks like: the agent key was read, the
command line was accepted, every step of the setup succeeded, and the thread was started. -/
theorem main_serving_form (K : Constants) (env : Env) (argv : List String)
    (h : (main K env argv).serving) :
    ∃ key p, env.read_agent_key = .ok key ∧ env.parser_process argv = .ok p ∧
      main K env argv =
        Run.after (events (setup_steps K env argv key p) ++
            [.thread_start .uv_thread .run_uv_loop .channel .loop])
          (exec EXIT_FAILURE (after_start_steps env p)) := by
  unfold Run.serving at h
  rw [main_eq_exec] at h ⊢
  rcases hk : env.read_agent_key with err | key
  · have h' := mem_trace_exec h
    simp [main_steps, hk, events] at h'
  · rcases hp : env.parser_process argv with code | p
    · have h' := mem_trace_exec h
      simp [main_steps, hk, hp, events, events_append, parsing_steps] at h'
    · refine ⟨key, p, rfl, rfl, ?_⟩
      have hsetup : Event.thread_start .uv_thread .run_uv_loop .channel .loop ∉
          events (setup_steps K env argv key p) := by
        rw [events_setup_steps]
        intro hmem
        simp only [List.mem_append, List.mem_cons] at hmem
        rcases hmem with hmem | hmem | hmem | hmem | hmem
        · simp [parsing_steps, events] at hmem
        · simp at hmem
        · simp at hmem
        · obtain ⟨fmt, arg, hlog⟩ := mem_events_hostname_steps hmem
          simp at hlog
        · simp [wiring_steps, events] at hmem
      have hsteps : main_steps K env argv =
          setup_steps K env argv key p ++ serving_steps env p := by
        simp [main_steps, hk, hp]
      rw [hsteps, exec_append] at h ⊢
      by_cases hpass : passes (setup_steps K env argv key p) = true
      · rw [if_pos hpass] at h ⊢
        by_cases hthrow : env.throws .thread_start = true
        · simp [serving_steps, exec, hthrow, after_trace, stop_trace] at h
          exact absurd h hsetup
        · simp [serving_steps, exec, hthrow, Run.after]
      · rw [if_neg hpass] at h
        exact absurd (mem_trace_exec h) hsetup

/-- The events after the start of the loop thread are those of the gRPC server and the
join. -/
theorem mem_after_start {env : Env} {p : ParsedArgs} {e : Event}
    (h : e ∈ (exec EXIT_FAILURE (after_start_steps env p)).trace) :
    e = .add_listening_port (ValueFlag.Get "localhost:8712" p.server_address) ∨
    e = .register_service .service ∨ e = .build_and_start ∨ e = .server_wait ∨
    e = .thread_join .uv_thread := by
  have h' := mem_trace_exec h
  simpa [after_start_steps, events] using h'

/-- A predicate that is false of the events of the gRPC server and of the join selects
nothing after the start of the loop thread. -/
theorem filter_after_start (env : Env) (p : ParsedArgs) (q : Event → Bool)
    (h₁ : ∀ a, q (.add_listening_port a) = false) (h₂ : ∀ v, q (.register_service v) = false)
    (h₃ : q .build_and_start = false) (h₄ : q .server_wait = false)
    (h₅ : ∀ v, q (.thread_join v) = false) :
    (exec EXIT_FAILURE (after_start_steps env p)).trace.filter q = [] := by
  rw [List.filter_eq_nil_iff]
  intro e he
  rcases mem_after_start he with h | h | h | h | h <;> subst h <;> simp [*]

/-- Before the loop thread is started `main` makes no call of the gRPC server and no join. -/
theorem setup_events_not_server {K : Constants} {env : Env} {argv : List String}
    {key : AgentKey} {p : ParsedArgs} {e : Event}
    (h : e ∈ events (setup_steps K env argv key p)) : is_server_event e = false := by
  rw [events_setup_steps] at h
  simp only [List.mem_append, List.mem_cons] at h
  rcases h with h | h | h | h | h
  · simp only [parsing_steps, events, List.mem_cons, List.not_mem_nil, or_false] at h
    rcases h with h | h | h | h | h | h | h | h | h | h | h | h | h | h | h | h <;>
      subst h <;> rfl
  · subst h; rfl
  · subst h; rfl
  · obtain ⟨fmt, arg, rfl⟩ := mem_events_hostname_steps h
    rfl
  · simp only [wiring_steps, events, List.mem_cons, List.not_mem_nil, or_false] at h
    rcases h with h | h | h | h | h | h | h | h | h | h | h | h | h | h | h <;>
      subst h <;> rfl

/-- Where an event of the steps of `main` comes from. -/
theorem mem_events_main_steps {K : Constants} {env : Env} {argv : List String} {e : Event}
    (h : e ∈ events (main_steps K env argv)) :
    (∃ err, env.read_agent_key = .error err ∧
      e ∈ [Event.uv_loop_init .loop, .read_agent_key,
        .log_critical "Authentication key error: {}" err, .call_exit (-1)]) ∨
    (∃ key, env.read_agent_key = .ok key ∧ e ∈ events (parsing_steps env argv key)) ∨
    (∃ key p, env.read_agent_key = .ok key ∧ env.parser_process argv = .ok p ∧
      (e ∈ events (setup_steps K env argv key p) ∨ e ∈ events (serving_steps env p))) := by
  rcases hk : env.read_agent_key with err | key
  · left
    refine ⟨err, rfl, ?_⟩
    simpa [main_steps, hk, events] using h
  · right
    rcases hp : env.parser_process argv with code | p
    · left
      refine ⟨key, rfl, ?_⟩
      simpa [main_steps, hk, hp, events, events_append] using h
    · right
      refine ⟨key, p, rfl, rfl, ?_⟩
      simpa [main_steps, hk, hp, events_append] using h

/-- The events of `main` that construct the channel, the processor or the RPC service, or
register the observer, are those of the wiring steps. -/
theorem mem_wiring_of_mem_trace {K : Constants} {env : Env} {argv : List String} {e : Event}
    (h : e ∈ (main K env argv).trace)
    (he : (is_new_channel e || is_new_processor e || is_new_service e) = true) :
    ∃ key p, env.read_agent_key = .ok key ∧ env.parser_process argv = .ok p ∧
      e ∈ events (wiring_steps K env key p (resolved_hostname K env)) := by
  rcases mem_events_main_steps (mem_trace_main h) with
    ⟨err, -, hm⟩ | ⟨key, -, hm⟩ | ⟨key, p, hk, hp, hm | hm⟩
  · simp only [List.mem_cons, List.not_mem_nil, or_false] at hm
    rcases hm with hm | hm | hm | hm <;> subst hm <;> simp at he <;>
      simp [is_new_channel, is_new_processor, is_new_service] at he
  · simp only [parsing_steps, events, List.mem_cons, List.not_mem_nil, or_false] at hm
    rcases hm with hm | hm | hm | hm | hm | hm | hm | hm | hm | hm | hm | hm | hm | hm |
      hm | hm <;> subst hm <;> simp [is_new_channel, is_new_processor, is_new_service] at he
  · refine ⟨key, p, hk, hp, ?_⟩
    rw [events_setup_steps] at hm
    simp only [List.mem_append, List.mem_cons] at hm
    rcases hm with hm | hm | hm | hm | hm
    · simp only [parsing_steps, events, List.mem_cons, List.not_mem_nil, or_false] at hm
      rcases hm with hm | hm | hm | hm | hm | hm | hm | hm | hm | hm | hm | hm | hm | hm |
        hm | hm <;> subst hm <;>
        simp [is_new_channel, is_new_processor, is_new_service] at he
    · subst hm; simp [is_new_channel, is_new_processor, is_new_service] at he
    · subst hm; simp [is_new_channel, is_new_processor, is_new_service] at he
    · obtain ⟨fmt, arg, rfl⟩ := mem_events_hostname_steps hm
      simp [is_new_channel, is_new_processor, is_new_service] at he
    · exact hm
  · simp only [serving_steps, after_start_steps, events, List.mem_cons, List.not_mem_nil,
      or_false] at hm
    rcases hm with hm | hm | hm | hm | hm | hm <;> subst hm <;>
      simp [is_new_channel, is_new_processor, is_new_service] at he

/-- The one way `main` constructs a `ResyncProcessor`. -/
theorem new_processor_of_mem_trace {K : Constants} {env : Env} {argv : List String}
    {e : Event} (h : e ∈ (main K env argv).trace) (he : is_new_processor e = true) :
    ∃ key p, env.read_agent_key = .ok key ∧ env.parser_process argv = .ok p ∧
      e = .new_processor .processor .loop .queue .channel .configuration_data
        (resolved_hostname K env) .authz_fetcher
        (milliseconds (ValueFlag.Get (u64 (1 * 1000)) (p.aws_timeout.map fun v => u64 v)))
        (seconds (ValueFlag.Get (u16 K.HEARTBEAT_INTERVAL_sec)
          (p.heartbeat_interval_sec.map fun v => u16 v)))
        K.WRITE_BUFFER_SIZE := by
  obtain ⟨key, p, hk, hp, hm⟩ := mem_wiring_of_mem_trace h (by simp [he])
  refine ⟨key, p, hk, hp, ?_⟩
  simp only [wiring_steps, events, List.mem_cons, List.not_mem_nil, or_false] at hm
  rcases hm with hm | hm | hm | hm | hm | hm | hm | hm | hm | hm | hm | hm | hm | hm | hm <;>
    first
    | exact hm
    | (subst hm; simp [is_new_processor] at he)

/-- A `u64` below `2 ^ 63` keeps its value as a tick count. -/
theorem milliseconds_u64_of_lt (v : Nat) (hv : v < 2 ^ 63) :
    milliseconds (u64 v) = v := by
  unfold milliseconds i64 u64
  omega

/-- An extra event in a list of steps changes neither the outcome nor, once it is filtered
out, the trace. -/
theorem exec_insert_event (code : Int) (a b : List Step) (x : Event) (q : Event → Bool)
    (hx : q x = false) (ha : ∀ e ∈ events a, q e = true) (hb : ∀ e ∈ events b, q e = true) :
    (exec code (a ++ .ev x :: b)).outcome = (exec code (a ++ b)).outcome ∧
    (exec code (a ++ .ev x :: b)).trace.filter q = (exec code (a ++ b)).trace := by
  rw [exec_append, exec_append]
  split
  · refine ⟨rfl, ?_⟩
    have hT : (exec code b).trace.filter q = (exec code b).trace :=
      List.filter_eq_self.mpr fun e he => hb e (mem_trace_exec he)
    simp only [exec, after_trace, List.filter_append, List.singleton_append,
      List.filter_cons, hx, hT, List.filter_eq_self.mpr ha]
    simp
  · exact ⟨rfl, List.filter_eq_self.mpr fun e he => ha e (mem_trace_exec he)⟩

/-- The loop thread is not started before the setup is over. -/
theorem thread_start_not_mem_setup (K : Constants) (env : Env) (argv : List String)
    (key : AgentKey) (p : ParsedArgs) :
    ∀ e ∈ events (setup_steps K env argv key p), is_thread_start e = false := by
  intro e h
  rw [events_setup_steps] at h
  simp only [List.mem_append, List.mem_cons] at h
  rcases h with h | h | h | h | h
  · simp only [parsing_steps, events, List.mem_cons, List.not_mem_nil, or_false] at h
    casesm* _ ∨ _ <;> subst_vars <;> rfl
  · subst h; rfl
  · subst h; rfl
  · obtain ⟨fmt, arg, rfl⟩ := mem_events_hostname_steps h
    rfl
  · simp only [wiring_steps, events, List.mem_cons, List.not_mem_nil, or_false] at h
    casesm* _ ∨ _ <;> subst_vars <;> rfl

/-- The function `main` itself never calls `start_connect` or `uv_run`, and the only thread
it starts is the loop thread. -/
theorem event_kinds_of_main {K : Constants} {env : Env} {argv : List String} {e : Event}
    (h : e ∈ (main K env argv).trace) :
    is_start_connect e = false ∧ is_uv_run e = false ∧
    (is_thread_start e = true → e = .thread_start .uv_thread .run_uv_loop .channel .loop) := by
  rcases mem_events_main_steps (mem_trace_main h) with
    ⟨err, -, hm⟩ | ⟨key, -, hm⟩ | ⟨key, p, hk, hp, hm | hm⟩
  · simp only [List.mem_cons, List.not_mem_nil, or_false] at hm
    casesm* _ ∨ _ <;> subst_vars <;> simp [is_start_connect, is_uv_run, is_thread_start]
  · simp only [parsing_steps, events, List.mem_cons, List.not_mem_nil, or_false] at hm
    casesm* _ ∨ _ <;> subst_vars <;> simp [is_start_connect, is_uv_run, is_thread_start]
  · rw [events_setup_steps] at hm
    simp only [List.mem_append, List.mem_cons] at hm
    rcases hm with hm | hm | hm | hm | hm
    · simp only [parsing_steps, events, List.mem_cons, List.not_mem_nil, or_false] at hm
      casesm* _ ∨ _ <;> subst_vars <;> simp [is_start_connect, is_uv_run, is_thread_start]
    · subst hm; simp [is_start_connect, is_uv_run, is_thread_start]
    · subst hm; simp [is_start_connect, is_uv_run, is_thread_start]
    · obtain ⟨fmt, arg, rfl⟩ := mem_events_hostname_steps hm
      simp [is_start_connect, is_uv_run, is_thread_start]
    · simp only [wiring_steps, events, List.mem_cons, List.not_mem_nil, or_false] at hm
      casesm* _ ∨ _ <;> subst_vars <;> simp [is_start_connect, is_uv_run, is_thread_start]
  · simp only [serving_steps, after_start_steps, events, List.mem_cons, List.not_mem_nil,
      or_false] at hm
    casesm* _ ∨ _ <;> subst_vars <;> simp [is_start_connect, is_uv_run, is_thread_start]

/-- The observer is registered during the setup. -/
theorem register_mem_setup (K : Constants) (env : Env) (argv : List String)
    (key : AgentKey) (p : ParsedArgs) :
    Event.register_pipeline_observer .channel .processor ∈
      events (setup_steps K env argv key p) := by
  rw [events_setup_steps]
  simp [wiring_steps, events]

/-- If a list that starts with `s` is cut at an element that is not in `s`, the cut is after
`s`. -/
theorem subset_of_append_eq {s r pre post : List Event} {e x : Event}
    (h : s ++ r = pre ++ e :: post) (he : e ∉ s) (hx : x ∈ s) : x ∈ pre := by
  rcases List.append_eq_append_iff.mp h with ⟨a, hpre, -⟩ | ⟨c, hs, hc⟩
  · rw [hpre]
    exact List.mem_append_left _ hx
  · cases c with
    | nil =>
      rw [List.append_nil] at hs
      rw [← hs]
      exact hx
    | cons y c =>
      simp only [List.cons_append, List.cons.injEq] at hc
      rw [hs] at he
      exact absurd (by simp [hc.1]) he

/-- Without a thread start the history of the process is that of `main`. -/
theorem process_history_of_no_thread (r o : Nat → Bool) (fuel : Nat) (sched : List Bool)
    (l : List Event) (h : ∀ x ∈ l, is_thread_start x = false) :
    process_history r o fuel sched l = l := by
  induction l with
  | nil => rfl
  | cons x rest ih =>
    have hx : is_thread_start x = false := h x (List.mem_cons_self _ _)
    have hrest : ∀ y ∈ rest, is_thread_start y = false :=
      fun y hy => h y (List.mem_cons_of_mem _ hy)
    simp [process_history, hx, ih hrest]

/-- Up to the first thread start the history of the process is that of `main`. -/
theorem process_history_append (r o : Nat → Bool) (fuel : Nat) (sched : List Bool)
    (s t : List Event) (ts : Event) (hs : ∀ x ∈ s, is_thread_start x = false)
    (hts : is_thread_start ts = true) :
    process_history r o fuel sched (s ++ ts :: t) =
      s ++ ts :: interleave sched t (thread_trace r o fuel ts) := by
  induction s with
  | nil => simp [process_history, hts]
  | cons x rest ih =>
    have hx : is_thread_start x = false := hs x (List.mem_cons_self _ _)
    have hrest : ∀ y ∈ rest, is_thread_start y = false :=
      fun y hy => hs y (List.mem_cons_of_mem _ hy)
    simp [process_history, hx, ih hrest]

/-! ## The loop thread -/

/-- The first two events of the steps of `main`. -/
theorem events_main_steps_head (K : Constants) (env : Env) (argv : List String) :
    ∃ rest, events (main_steps K env argv) =
      [Event.uv_loop_init .loop, .read_agent_key] ++ rest := by
  refine ⟨(events (main_steps K env argv)).drop 2, ?_⟩
  rcases hk : env.read_agent_key with err | key
  · simp [main_steps, hk, events]
  · rcases hp : env.parser_process argv with code | p
    · simp [main_steps, hk, hp, events_append, parsing_steps, events]
    · simp [main_steps, hk, hp, events_append, setup_steps, parsing_steps, events]

/-! ## Startup failures -/

/-- When `uv_loop_init` fails, `main` throws right after it. -/
theorem main_of_loop_init_error (K : Constants) (env : Env) (argv : List String)
    (h0 : env.uv_loop_init ≠ 0) :
    main K env argv =
      ⟨[.uv_loop_init .loop], .error (.uncaught (env.uv_strerror env.uv_loop_init))⟩ := by
  simp only [main, emit_bind, ite_bind, stop_bind, h0, ne_eq, not_false_eq_true, if_true]
  rfl

/-- When the loop is set up and there is no agent key, `main` logs and calls `exit(-1)`. -/
theorem main_of_agent_key_error (K : Constants) (env : Env) (argv : List String)
    (err : String) (h0 : env.uv_loop_init = 0) (h1 : env.read_agent_key = .error err) :
    main K env argv =
      ⟨[.uv_loop_init .loop, .read_agent_key,
        .log_critical "Authentication key error: {}" err, .call_exit (-1)],
       .error (.exited (-1))⟩ := by
  simp only [main, on_error, emit_bind, ite_bind, stop_bind, ret_bind, after_bind, h0, h1,
    ne_eq, not_true_eq_false, if_false]
  rfl

/-- The call of `read_agent_key` is reached exactly when `uv_loop_init` succeeded. -/
theorem read_agent_key_reached_iff (K : Constants) (env : Env) (argv : List String) :
    Event.read_agent_key ∈ (main K env argv).trace ↔ env.uv_loop_init = 0 := by
  constructor
  · intro h
    by_contra h0
    rw [main_of_loop_init_error K env argv h0] at h
    simp at h
  · intro h0
    simp only [main, emit_bind, ite_bind, stop_bind, ret_bind, after_bind, h0, ne_eq,
      not_true_eq_false, if_false, after_trace]
    simp

/-! ## Claims -/

/-- C1: in every run of `main` in which `AuthzFetcher::read_agent_key()` is called and
yields an error, the process is ended by `exit(-1)`, whose exit status is non-zero, and the
run has performed nothing of the serving machinery: no channel, queue, processor or RPC
service is constructed, and neither the loop thread nor the gRPC server is started. -/
theorem main_agent_key_error_exits (K : Constants) (env : Env) (argv : List String)
    (err : String)
    (hcall : Event.read_agent_key ∈ (main K env argv).trace)
    (herr : env.read_agent_key = .error err) :
    (main K env argv).outcome = .exited (-1) ∧
    exit_status (-1) ≠ 0 ∧
    (main K env argv).trace.getLast? = some (.call_exit (-1)) ∧
    ∀ e ∈ (main K env argv).trace, is_serving_event e = false := by
  have h0 := (read_agent_key_reached_iff K env argv).mp hcall
  rw [main_of_agent_key_error K env argv err h0 herr]
  refine ⟨rfl, by decide, rfl, ?_⟩
  intro e he
  simp only [List.mem_cons, List.mem_singleton, List.not_mem_nil, or_false] at he
  rcases he with h | h | h | h <;> subst h <;> rfl

/-- C1 at the sample environment without an agent key. -/
theorem main_agent_key_error_exits_witness :
    (main sample_constants env_no_key ["k8s-relay"]).outcome = .exited (-1) ∧
    exit_status (-1) ≠ 0 ∧
    (main sample_constants env_no_key ["k8s-relay"]).trace.getLast? =
      some (.call_exit (-1)) ∧
    ∀ e ∈ (main sample_constants env_no_key ["k8s-relay"]).trace,
      is_serving_event e = false :=
  main_agent_key_error_exits sample_constants env_no_key ["k8s-relay"] "no key"
    (by decide) rfl

/-- C4: in every run of `main` that starts the loop thread, exactly one `ResyncQueue`, exactly
one `ResyncProcessor` and exactly one `ReconnectingChannel` are constructed; the queue is
handed to two objects only, the one processor and then the one `KubernetesRpcServer`, and
both are handed the same queue, the one constructed. -/
theorem main_one_queue_one_processor_one_channel (K : Constants) (env : Env)
    (argv : List String) (h : (main K env argv).serving) :
    (main K env argv).trace.filter is_new_queue = [.new_queue .queue] ∧
    (main K env argv).trace.countP is_new_processor = 1 ∧
    (main K env argv).trace.countP is_new_channel = 1 ∧
    ((main K env argv).trace.filter is_new_processor).map queue_of = [some .queue] ∧
    (main K env argv).trace.filter is_new_service =
      [.new_service .service .queue K.WRITE_BUFFER_SIZE] ∧
    ((main K env argv).trace.filter (fun e => (queue_of e).isSome)).map
      (fun e => (is_new_processor e, is_new_service e, queue_of e)) =
      [(true, false, some .queue), (false, true, some .queue)] := by
  obtain ⟨key, p, -, -, hform⟩ := main_serving_form K env argv h
  rw [hform]
  simp only [after_trace, events_setup_steps, List.countP_eq_length_filter,
    List.filter_append, List.filter_cons, List.filter_nil]
  rw [filter_hostname_steps K env is_new_queue (fun _ _ => rfl),
    filter_hostname_steps K env is_new_processor (fun _ _ => rfl),
    filter_hostname_steps K env is_new_channel (fun _ _ => rfl),
    filter_hostname_steps K env is_new_service (fun _ _ => rfl),
    filter_hostname_steps K env (fun e => (queue_of e).isSome) (fun _ _ => rfl),
    filter_after_start env p is_new_queue (fun _ => rfl) (fun _ => rfl) rfl rfl
      (fun _ => rfl),
    filter_after_start env p is_new_processor (fun _ => rfl) (fun _ => rfl) rfl rfl
      (fun _ => rfl),
    filter_after_start env p is_new_channel (fun _ => rfl) (fun _ => rfl) rfl rfl
      (fun _ => rfl),
    filter_after_start env p is_new_service (fun _ => rfl) (fun _ => rfl) rfl rfl
      (fun _ => rfl),
    filter_after_start env p (fun e => (queue_of e).isSome) (fun _ => rfl)
      (fun _ => rfl) rfl rfl (fun _ => rfl)]
  simp [parsing_steps, wiring_steps, events, is_new_queue, is_new_channel,
    is_new_processor, is_new_service, queue_of]

/-- C4 at the sample environment. -/
theorem main_one_queue_one_processor_one_channel_witness :
    (main sample_constants sample_env []).trace.filter is_new_queue = [.new_queue .queue] ∧
    (main sample_constants sample_env []).trace.countP is_new_processor = 1 ∧
    (main sample_constants sample_env []).trace.countP is_new_channel = 1 ∧
    ((main sample_constants sample_env []).trace.filter is_new_processor).map queue_of =
      [some .queue] ∧
    (main sample_constants sample_env []).trace.filter is_new_service =
      [.new_service .service .queue sample_constants.WRITE_BUFFER_SIZE] ∧
    ((main sample_constants sample_env []).trace.filter (fun e => (queue_of e).isSome)).map
      (fun e => (is_new_processor e, is_new_service e, queue_of e)) =
      [(true, false, some .queue), (false, true, some .queue)] :=
  main_one_queue_one_processor_one_channel sample_constants sample_env [] (by decide)

/-- C5, as amended: the metadata timeout handed to the `ResyncProcessor` is exactly 1000
milliseconds when `--aws-timeout` is not given, and exactly `v` milliseconds when it is given
the value `v` with `v < 2 ^ 63`. -/
theorem main_aws_timeout_handed (K : Constants) (env : Env) (argv : List String) :
    (aws_timeout_given env argv = none →
      ∀ t ∈ (main K env argv).trace.filterMap aws_timeout_of, t = 1000) ∧
    (∀ v : Nat, aws_timeout_given env argv = some v → v < 2 ^ 63 →
      ∀ t ∈ (main K env argv).trace.filterMap aws_timeout_of, t = (v : Int)) := by
  have hform : ∀ t ∈ (main K env argv).trace.filterMap aws_timeout_of,
      ∃ p, env.parser_process argv = .ok p ∧
        t = milliseconds (ValueFlag.Get (u64 (1 * 1000)) (p.aws_timeout.map fun v => u64 v)) := by
    intro t ht
    obtain ⟨e, he, hte⟩ := List.mem_filterMap.mp ht
    have hkind : is_new_processor e = true := by
      cases e <;> simp [aws_timeout_of, is_new_processor] at hte ⊢
    obtain ⟨key, p, -, hp, rfl⟩ := new_processor_of_mem_trace he hkind
    simp only [aws_timeout_of, Option.some.injEq] at hte
    exact ⟨p, hp, hte.symm⟩
  constructor
  · intro hnone t ht
    obtain ⟨p, hp, ht'⟩ := hform t ht
    simp only [aws_timeout_given, hp] at hnone
    rw [ht', hnone]
    decide
  · intro v hsome hv t ht
    obtain ⟨p, hp, ht'⟩ := hform t ht
    simp only [aws_timeout_given, hp] at hsome
    rw [ht', hsome]
    simp only [ValueFlag.Get, Option.map_some', Option.getD_some]
    exact milliseconds_u64_of_lt v hv

/-- C5, as amended, at the sample environment without the flag, where the processor is
handed 1000 ms, and with `--aws-timeout 250`, where it is handed 250 ms. -/
theorem main_aws_timeout_handed_witness :
    (∀ t ∈ (main sample_constants sample_env []).trace.filterMap aws_timeout_of,
      t = 1000) ∧
    (main sample_constants sample_env []).trace.filterMap aws_timeout_of = [1000] ∧
    (∀ t ∈ (main sample_constants env_timeout_250
        ["--aws-timeout", "250"]).trace.filterMap aws_timeout_of, t = ((250 : Nat) : Int)) ∧
    (main sample_constants env_timeout_250
      ["--aws-timeout", "250"]).trace.filterMap aws_timeout_of = [250] :=
  ⟨(main_aws_timeout_handed sample_constants sample_env []).1 rfl,
   by decide,
   (main_aws_timeout_handed sample_constants env_timeout_250 ["--aws-timeout", "250"]).2
     250 rfl (by decide),
   by decide⟩

/-- C5 fails as stated: given the `u64` value `2 ^ 63` for `--aws-timeout`, the
`ResyncProcessor` is handed `-2 ^ 63` milliseconds, not `2 ^ 63`. -/
theorem main_aws_timeout_wraps :
    aws_timeout_given env_timeout_big ["--aws-timeout", "9223372036854775808"] =
      some (2 ^ 63) ∧
    2 ^ 63 < 2 ^ 64 ∧
    (main sample_constants env_timeout_big
      ["--aws-timeout", "9223372036854775808"]).trace.filterMap aws_timeout_of =
      [-9223372036854775808] ∧
    (-9223372036854775808 : Int) ≠ ((2 ^ 63 : Nat) : Int) := by
  refine ⟨rfl, by decide, by decide, by decide⟩

/-- C6: a failure of `get_host_name` is not fatal.  When it returns an error, the hostname
handed to the `ResyncProcessor` is exactly "(unknown)", and the run goes on as the run in
which `get_host_name` had returned "(unknown)": same outcome, same events but for the one
`LOG::error`.  When it succeeds, the hostname handed on is the value it returned. -/
theorem main_hostname_placeholder (K : Constants) (env : Env) (argv : List String) :
    (∀ err, env.get_host_name K.MAX_HOSTNAME_LENGTH = .error err →
      (∀ e ∈ (main K env argv).trace, ∀ h, hostname_of e = some h → h = "(unknown)") ∧
      (main K env argv).outcome = (main K (with_hostname env "(unknown)") argv).outcome ∧
      (main K env argv).trace.filter (fun e => !is_log_error e) =
        (main K (with_hostname env "(unknown)") argv).trace) ∧
    (∀ name, env.get_host_name K.MAX_HOSTNAME_LENGTH = .ok name →
      ∀ e ∈ (main K env argv).trace, ∀ h, hostname_of e = some h → h = name) := by
  have hhost : ∀ e ∈ (main K env argv).trace, ∀ h, hostname_of e = some h →
      h = resolved_hostname K env := by
    intro e he h hh
    have hkind : is_new_processor e = true := by
      cases e <;> simp [hostname_of, is_new_processor] at hh ⊢
    obtain ⟨key, p, -, -, rfl⟩ := new_processor_of_mem_trace he hkind
    simp only [hostname_of, Option.some.injEq] at hh
    exact hh.symm
  refine ⟨fun err herr => ⟨?_, ?_⟩, ?_⟩
  · intro e he h hh
    rw [hhost e he h hh]
    simp [resolved_hostname, herr]
  · rw [main_eq_exec, main_eq_exec]
    rcases hk : env.read_agent_key with kerr | key
    · have hsame : main_steps K (with_hostname env "(unknown)") argv =
          main_steps K env argv := by
        simp [main_steps, with_hostname, hk]
      rw [hsame]
      refine ⟨rfl, List.filter_eq_self.mpr fun e he => ?_⟩
      have hm := mem_trace_exec he
      simp only [main_steps, hk, events, List.mem_cons, List.not_mem_nil, or_false] at hm
      rcases hm with hm | hm | hm | hm <;> subst hm <;> rfl
    · rcases hp : env.parser_process argv with code | p
      · have hsame : main_steps K (with_hostname env "(unknown)") argv =
            main_steps K env argv := by
          simp [main_steps, with_hostname, hk, hp, parsing_steps]
        rw [hsame]
        refine ⟨rfl, List.filter_eq_self.mpr fun e he => ?_⟩
        have hm := mem_trace_exec he
        simp only [main_steps, hk, hp, events_append, parsing_steps, events,
          List.mem_append, List.mem_cons, List.not_mem_nil, or_false] at hm
        rcases hm with hm | hm | hm | hm | hm | hm | hm | hm | hm | hm | hm | hm | hm | hm |
          hm | hm <;> subst hm <;> rfl
      · have h₁ : main_steps K env argv =
            (parsing_steps env argv key ++
              [.guard (env.throws .gen_agent_id) (.raised .gen_agent_id),
                .ev .gen_agent_id, .ev (.get_host_name K.MAX_HOSTNAME_LENGTH)]) ++
            .ev (.log_error "Unable to retrieve host information from uname: {}" err) ::
              (wiring_steps K env key p "(unknown)" ++ serving_steps env p) := by
          simp [main_steps, setup_steps, hostname_steps, resolved_hostname, hk, hp, herr]
        have h₂ : main_steps K (with_hostname env "(unknown)") argv =
            (parsing_steps env argv key ++
              [.guard (env.throws .gen_agent_id) (.raised .gen_agent_id),
                .ev .gen_agent_id, .ev (.get_host_name K.MAX_HOSTNAME_LENGTH)]) ++
              (wiring_steps K env key p "(unknown)" ++ serving_steps env p) := by
          simp [main_steps, setup_steps, hostname_steps, resolved_hostname, with_hostname,
            hk, hp, parsing_steps, wiring_steps, serving_steps, after_start_steps]
        rw [h₁, h₂]
        refine exec_insert_event EXIT_FAILURE _ _ _ (fun e => !is_log_error e) rfl ?_ ?_
        · intro e hm
          simp only [events_append, parsing_steps, events, List.mem_append, List.mem_cons,
            List.not_mem_nil, or_false] at hm
          casesm* _ ∨ _ <;> subst_vars <;> rfl
        · intro e hm
          simp only [events_append, wiring_steps, serving_steps, after_start_steps, events,
            List.mem_append, List.mem_cons, List.not_mem_nil, or_false] at hm
          casesm* _ ∨ _ <;> subst_vars <;> rfl
  · intro name hname e he h hh
    rw [hhost e he h hh]
    simp [resolved_hostname, hname]

/-- C6 at the sample environment with a failing `uname`. -/
theorem main_hostname_placeholder_witness :
    (∀ e ∈ (main sample_constants env_no_hostname []).trace, ∀ h,
      hostname_of e = some h → h = "(unknown)") ∧
    (main sample_constants env_no_hostname []).trace.filterMap hostname_of = ["(unknown)"] ∧
    (main sample_constants env_no_hostname []).outcome = .returned EXIT_FAILURE :=
  ⟨((main_hostname_placeholder sample_constants env_no_hostname []).1
      "uname failed" rfl).1, by decide, by decide⟩

/-- C7: in every run of `main` that has started the loop thread, `main` does not return 0;
if it returns at all it returns `EXIT_FAILURE`, whose exit status is non-zero; and when
`uv_thread.join()` is reached (so `server->Wait()` has come back) and comes back itself,
`main` does return, with `EXIT_FAILURE`. -/
theorem main_serving_returns_failure (K : Constants) (env : Env) (argv : List String)
    (h : (main K env argv).serving) :
    (main K env argv).outcome ≠ .returned 0 ∧
    (∀ code, (main K env argv).outcome = .returned code →
      code = EXIT_FAILURE ∧ exit_status code ≠ 0) ∧
    (Event.thread_join .uv_thread ∈ (main K env argv).trace → env.join_returns = true →
      (main K env argv).outcome = .returned EXIT_FAILURE) := by
  obtain ⟨key, p, -, -, hform⟩ := main_serving_form K env argv h
  have hjoin : Event.thread_join .uv_thread ∉ events (setup_steps K env argv key p) :=
    fun hm => by simpa [is_server_event] using setup_events_not_server hm
  rw [hform]
  simp only [after_outcome, after_trace, List.mem_append, List.mem_singleton, hjoin,
    false_or, after_start_steps, exec]
  split_ifs <;>
    simp_all [stop_outcome, stop_trace, pure_outcome, pure_trace, after_outcome,
      after_trace, EXIT_FAILURE, exit_status]

/-- C7 at the sample environment, where `server->Wait()` and `uv_thread.join()` come back:
`main` returns `EXIT_FAILURE`. -/
theorem main_serving_returns_failure_witness :
    (main sample_constants sample_env []).serving ∧
    (main sample_constants sample_env []).outcome = .returned EXIT_FAILURE ∧
    (main sample_constants sample_env []).outcome ≠ .returned 0 :=
  ⟨by decide,
   (main_serving_returns_failure sample_constants sample_env [] (by decide)).2.2
     (by decide) rfl,
   (main_serving_returns_failure sample_constants sample_env [] (by decide)).1⟩

/-- C8: in every run of `main`, the call `channel.register_pipeline_observer(&processor)` is
made before the loop thread is started; and in every history of the process, in which the
loop thread runs `run_uv_loop` from the moment it is started, that call is made before any
call of `start_connect`. -/
theorem main_registers_observer_first (K : Constants) (env : Env) (argv : List String) :
    (∀ pre e post, (main K env argv).trace = pre ++ e :: post → is_thread_start e = true →
      Event.register_pipeline_observer .channel .processor ∈ pre) ∧
    (∀ start_connect_raises uv_run_comes_back fuel sched pre e post,
      process_history start_connect_raises uv_run_comes_back fuel sched
          (main K env argv).trace =
        pre ++ e :: post →
      is_start_connect e = true →
      Event.register_pipeline_observer .channel .processor ∈ pre) := by
  by_cases hs : (main K env argv).serving
  · obtain ⟨key, p, -, -, hform⟩ := main_serving_form K env argv hs
    have hmem : ∀ x ∈ events (setup_steps K env argv key p),
        x ∈ (main K env argv).trace := by
      intro x hx
      rw [hform]
      simp [after_trace, hx]
    have htrace : (main K env argv).trace =
        events (setup_steps K env argv key p) ++
          .thread_start .uv_thread .run_uv_loop .channel .loop ::
            (exec EXIT_FAILURE (after_start_steps env p)).trace := by
      rw [hform]
      simp [after_trace]
    constructor
    · intro pre e post hcut he
      rw [htrace] at hcut
      refine subset_of_append_eq hcut (fun hin => ?_) (register_mem_setup K env argv key p)
      have := thread_start_not_mem_setup K env argv key p e hin
      simp [he] at this
    · intro r o fuel sched pre e post hcut he
      rw [htrace, process_history_append r o fuel sched _
        (exec EXIT_FAILURE (after_start_steps env p)).trace
        (.thread_start .uv_thread .run_uv_loop .channel .loop)
        (thread_start_not_mem_setup K env argv key p) rfl] at hcut
      refine subset_of_append_eq hcut (fun hin => ?_) (register_mem_setup K env argv key p)
      have := (event_kinds_of_main (hmem e hin)).1
      simp [he] at this
  · have hno : ∀ x ∈ (main K env argv).trace, is_thread_start x = false := by
      intro x hx
      by_contra hne
      have hts : is_thread_start x = true := by simpa using hne
      have := (event_kinds_of_main hx).2.2 hts
      subst this
      exact hs hx
    constructor
    · intro pre e post hcut he
      have := hno e (by rw [hcut]; simp)
      simp [he] at this
    · intro r o fuel sched pre e post hcut he
      rw [process_history_of_no_thread r o fuel sched _ hno] at hcut
      have := (@event_kinds_of_main K env argv e (by rw [hcut]; simp)).1
      simp [he] at this

/-- C8 at the sample environment: a history in which the loop thread makes its first call of
`start_connect` right after it is started; the observer is registered in the events
before. -/
theorem main_registers_observer_first_witness :
    Event.register_pipeline_observer .channel .processor ∈
      (process_history (fun _ => false) (fun _ => true) 3 [false, true, false]
        (main sample_constants sample_env []).trace).take 34 :=
  (main_registers_observer_first sample_constants sample_env []).2 (fun _ => false)
    (fun _ => true) 3
    [false, true, false] _ (.start_connect .channel)
    ((process_history (fun _ => false) (fun _ => true) 3 [false, true, false]
        (main sample_constants sample_env []).trace).drop 35)
    rfl rfl

/-- C9: the agent key is read before the command line is processed; and when reading the
agent key is reached and fails, the run of `main` is the same for any two command lines: it
ends by `exit(-1)`, it never returns a code (in particular not the parser's), and
`parser.process` is not even called. -/
theorem main_agent_key_error_ignores_argv (K : Constants) (env : Env)
    (argv₁ argv₂ : List String) :
    (∀ pre post a, (main K env argv₁).trace = pre ++ Event.parser_process a :: post →
      Event.read_agent_key ∈ pre) ∧
    (∀ err, Event.read_agent_key ∈ (main K env argv₁).trace →
      env.read_agent_key = .error err →
      main K env argv₁ = main K env argv₂ ∧
      (main K env argv₂).outcome = .exited (-1) ∧
      (∀ code, (main K env argv₂).outcome ≠ .returned code) ∧
      ∀ a, Event.parser_process a ∉ (main K env argv₂).trace) := by
  constructor
  · intro pre post a hcut
    obtain ⟨rest, hhead⟩ := events_main_steps_head K env argv₁
    have hpre : (main K env argv₁).trace <+: events (main_steps K env argv₁) := by
      rw [main_eq_exec]
      exact exec_trace_initial _ _
    obtain ⟨more, hmore⟩ := hpre
    rw [hhead, hcut] at hmore
    have hcut' : [Event.uv_loop_init .loop, .read_agent_key] ++ rest =
        pre ++ Event.parser_process a :: (post ++ more) := by
      rw [← hmore]
      simp
    exact subset_of_append_eq hcut' (by simp) (by simp)
  · intro err hcall herr
    have h0 := (read_agent_key_reached_iff K env argv₁).mp hcall
    rw [main_of_agent_key_error K env argv₁ err h0 herr,
      main_of_agent_key_error K env argv₂ err h0 herr]
    refine ⟨rfl, rfl, ?_, ?_⟩
    · intro code hcode
      simp [Run.outcome] at hcode
    · intro a ha
      simp at ha

/-- C9 at the sample environment without an agent key, for an empty command line and for
`--help`. -/
theorem main_agent_key_error_ignores_argv_witness :
    main sample_constants env_no_key [] = main sample_constants env_no_key ["--help"] ∧
    (main sample_constants env_no_key ["--help"]).outcome = .exited (-1) ∧
    (∀ code, (main sample_constants env_no_key ["--help"]).outcome ≠ .returned code) ∧
    ∀ a, Event.parser_process a ∉ (main sample_constants env_no_key ["--help"]).trace :=
  (main_agent_key_error_ignores_argv sample_constants env_no_key [] ["--help"]).2
    "no key" (by decide) rfl

/-- C10: in every run of `main`, whatever the command line and the environment, every object
constructed with a byte cap (the `ReconnectingChannel`, the `ResyncProcessor`, the
`KubernetesRpcServer`) is handed `WRITE_BUFFER_SIZE`; and in a run that starts the loop thread
exactly these three caps are handed out, all equal. -/
theorem main_caps_are_write_buffer_size (K : Constants) (env : Env) (argv : List String) :
    (∀ e ∈ (main K env argv).trace, ∀ cap, cap_of e = some cap →
      cap = K.WRITE_BUFFER_SIZE) ∧
    ((main K env argv).serving →
      ((main K env argv).trace.filter (fun e => (cap_of e).isSome)).map
        (fun e => (is_new_channel e, is_new_processor e, is_new_service e, cap_of e)) =
        [(true, false, false, some K.WRITE_BUFFER_SIZE),
         (false, true, false, some K.WRITE_BUFFER_SIZE),
         (false, false, true, some K.WRITE_BUFFER_SIZE)]) := by
  constructor
  · intro e he cap hcap
    have hkind : (is_new_channel e || is_new_processor e || is_new_service e) = true := by
      cases e <;> simp [cap_of, is_new_channel, is_new_processor, is_new_service] at hcap ⊢
    obtain ⟨key, p, -, -, hm⟩ := mem_wiring_of_mem_trace he hkind
    simp only [wiring_steps, events, List.mem_cons, List.not_mem_nil, or_false] at hm
    rcases hm with hm | hm | hm | hm | hm | hm | hm | hm | hm | hm | hm | hm | hm | hm | hm <;>
      subst hm <;> simp [cap_of] at hcap <;> exact hcap.symm
  · intro h
    obtain ⟨key, p, -, -, hform⟩ := main_serving_form K env argv h
    rw [hform]
    simp only [after_trace, events_setup_steps, List.filter_append, List.filter_cons,
      List.filter_nil]
    rw [filter_hostname_steps K env (fun e => (cap_of e).isSome) (fun _ _ => rfl),
      filter_after_start env p (fun e => (cap_of e).isSome) (fun _ => rfl)
        (fun _ => rfl) rfl rfl (fun _ => rfl)]
    simp [parsing_steps, wiring_steps, events, is_new_channel, is_new_processor,
      is_new_service, cap_of]

/-- C10 at the sample environment. -/
theorem main_caps_are_write_buffer_size_witness :
    ((main sample_constants sample_env []).trace.filter (fun e => (cap_of e).isSome)).map
      (fun e => (is_new_channel e, is_new_processor e, is_new_service e, cap_of e)) =
      [(true, false, false, some sample_constants.WRITE_BUFFER_SIZE),
       (false, true, false, some sample_constants.WRITE_BUFFER_SIZE),
       (false, false, true, some sample_constants.WRITE_BUFFER_SIZE)] :=
  (main_caps_are_write_buffer_size sample_constants sample_env []).2 (by decide)

end Collector
